import Mathlib

/-!
Shallow embedding of `scripts/cibuildpkg.py` (the build orchestration engine of
pyav-ffmpeg): the `Package` data model, the environment deriver, path mangling,
the installation ledger, the three backend adapters and the x265 multi-pass
composer, together with theorems settling the specification's claims.

Modelling conventions:
* Python dicts (`os.environ` and derived environments) are association lists
  with unique keys maintained by `setEnv`; lookup takes the first match.
* Filesystem and subprocess effects are made explicit: a `BuildState` records
  the ledger marker files present, the external commands issued (in order),
  the cached downloads, directories created, files written, renames performed
  and trees placed by extraction.  An `Oracle` decides the exit status of each
  external command; `subprocess.run(check=True)` raising on a non-zero exit is
  modelled by the executor stopping with `false`.
* Python exceptions that are not subprocess failures (assertion errors,
  `KeyError` on a missing environment variable, the unsupported-system
  exception of `get_platform`) are modelled as `Option`/failure outcomes.
-/

namespace Cibuildpkg

/-- A Python dict `dict[str, str]`, as an association list with unique keys. -/
abbrev Env := List (String × String)

/-- `env.get(name)`: first binding of `name`, if any. -/
def getEnv (env : Env) (name : String) : Option String :=
  (env.find? (fun p => p.1 == name)).map (fun p => p.2)

/-- `env[name] = value`: replace the existing binding in place, else append
(Python dicts keep insertion order; keys are unique, so replacing the first
match is dict assignment). -/
def setEnv : Env → String → String → Env
  | [], n, v => [(n, v)]
  | p :: t, n, v => if p.1 == n then (p.1, v) :: t else p :: setEnv t n v

/-- `prepend_env` (cibuildpkg.py lines 99-104).  In the source `separator`
defaults to a single space; callers here always pass it explicitly.
Note `if old:` is Python truthiness: an *empty* existing value takes the
same branch as an absent one. -/
def prepend_env (env : Env) (name new separator : String) : Env :=
  match getEnv env name with
  | some old => if old = "" then setEnv env name new
                else setEnv env name (new ++ separator ++ old)
  | none => setEnv env name new

/-- Split a character list at every occurrence of `c`, keeping empty
pieces, as Python `str.split` with a one-character separator does.
(`String.splitOn` is not used because its well-founded recursion does not
reduce in the kernel.) -/
def splitOnChar (c : Char) : List Char → List (List Char)
  | [] => [[]]
  | x :: xs =>
    let r := splitOnChar c xs
    if x = c then [] :: r
    else
      match r with
      | [] => [[x]]
      | h :: t => (x :: h) :: t

/-- Does the string start with the separator `/`? (`b.startswith(sep)`). -/
def startsWithSep (s : String) : Bool := s.data.head? == some '/'

/-- Does the string end with the separator `/`? (`path.endswith(sep)`). -/
def endsWithSep (s : String) : Bool := s.data.getLast? == some '/'

/-- `posixpath.join(a, b)`: an absolute second component resets the path;
otherwise a separator is inserted unless the accumulated path is empty or
already ends with one. -/
def pjoin (a b : String) : String :=
  if startsWithSep b then b
  else if a = "" || endsWithSep a then a ++ b
  else a ++ "/" ++ b

/-- One step of Python's `str.replace` scan, with fuel for termination: at
each position, if the (non-empty) pattern matches, emit the replacement and
skip the match, else emit one character and advance. -/
def replaceChars (pat rep : List Char) : Nat → List Char → List Char
  | _, [] => []
  | 0, s => s
  | fuel + 1, c :: rest =>
    if pat.isPrefixOf (c :: rest) then
      rep ++ replaceChars pat rep fuel (List.drop pat.length (c :: rest))
    else
      c :: replaceChars pat rep fuel rest

/-- Python `s.replace(pat, rep)` for a non-empty pattern: leftmost,
non-overlapping.  (The empty-pattern case never occurs in the source.) -/
def pyReplace (s pat rep : String) : String :=
  if pat.data.isEmpty then s
  else String.mk (replaceChars pat.data rep.data s.data.length s.data)

/-- The `Package` dataclass (cibuildpkg.py lines 107-120), with the source's
field defaults. -/
structure Package where
  name : String
  source_url : String
  build_system : String := "autoconf"
  build_arguments : List String := []
  build_dir : String := "build"
  build_parallel : Bool := true
  requires : List String := []
  fflags : String := ""
  source_dir : String := ""
  source_filename : String := ""
  source_strip_components : Nat := 1
  gpl : Bool := false
deriving Repr, DecidableEq

/-- Host facts read by the source: `platform.system()`, `platform.machine()`,
the pointer width probed by `struct.calcsize("P") * 8`, and the ambient
process environment `os.environ`. -/
structure SysConfig where
  system : String
  machine : String
  pointerBits : Nat
  environ : Env
deriving Repr, DecidableEq

/-- `get_platform()` (lines 31-50).  On Darwin it indexes
`os.environ["ARCHFLAGS"].split()[1]`; a missing variable or a too-short
split raises, modelled as `none`; an unsupported system also raises. -/
def get_platform (sys : SysConfig) : Option String :=
  if sys.system = "Linux" then some ("manylinux_" ++ sys.machine)
  else if sys.system = "Darwin" then
    match getEnv sys.environ "ARCHFLAGS" with
    | some af =>
      ((((splitOnChar ' ' af.data).filter (fun t => t ≠ [])).get? 1).map
        (fun m => "macosx_" ++ String.mk m))
    | none => none
  else if sys.system = "Windows" then
    some (if sys.pointerBits = 64 then "win_amd64" else "win32")
  else none

/-- `make_args` (lines 86-96): `-j` unless parallelism is disabled or the
machine is one of the emulated architectures. -/
def make_args (sys : SysConfig) (parallel : Bool) : List String :=
  if parallel && !(sys.machine ∈ ["aarch64", "ppc64le", "s390x"]) then ["-j"]
  else []

/-- The `Builder`'s configuration (its `__init__`, lines 124-130):
`dest_dir` as passed in, and the absolute build/patch/source directories. -/
structure Builder where
  dest_dir : String
  build_dir : String
  patch_dir : String
  source_dir : String
deriving Repr, DecidableEq

/-- `Builder._prefix` (lines 480-484): the host-tool prefix is
`dest_dir + ".builder"`, the target prefix is `dest_dir` itself. -/
def Builder.prefixPath (b : Builder) (for_builder : Bool) : String :=
  if for_builder then b.dest_dir ++ ".builder" else b.dest_dir

/-- The ledger directory `os.path.join(prefix, "var", "lib", "cibuildpkg")`
(lines 134-136 / 400-402). -/
def Builder.installedDir (b : Builder) (for_builder : Bool) : String :=
  pjoin (pjoin (pjoin (b.prefixPath for_builder) "var") "lib") "cibuildpkg"

/-- The ledger marker file `os.path.join(installed_dir, package.name)`
(line 137 / 403). -/
def Builder.installedFile (b : Builder) (for_builder : Bool) (name : String) :
    String :=
  pjoin (b.installedDir for_builder) name

/-- `Builder._mangle_path` (lines 472-478).  On Windows `os.path.sep` is a
backslash; the three `str.replace` calls rewrite every occurrence. -/
def Builder.manglePath (sys : SysConfig) (path : String) : String :=
  if sys.system = "Windows" then
    pyReplace (pyReplace (pyReplace path "\\" "/") "C:" "/c") "D:" "/d"
  else path

/-- `Builder._environment` (lines 446-470).  The source starts from
`os.environ.copy()`, so every write below targets the copy, never the
ambient environment.  On Darwin when not building host tools it reads
`os.environ["ARCHFLAGS"]`, which raises `KeyError` when absent: `none`. -/
def Builder.environmentFor (b : Builder) (sys : SysConfig)
    (for_builder : Bool) : Option Env :=
  let env := sys.environ
  let pfx := b.prefixPath for_builder
  let env := prepend_env env "CPPFLAGS"
    ("-I" ++ Builder.manglePath sys (pjoin pfx "include")) " "
  let env := prepend_env env "LDFLAGS"
    ("-L" ++ Builder.manglePath sys (pjoin pfx "lib")) " "
  let env := prepend_env env "PKG_CONFIG_PATH"
    (Builder.manglePath sys (pjoin (pjoin pfx "lib") "pkgconfig")) ":"
  if sys.system = "Darwin" && !for_builder then
    match getEnv sys.environ "ARCHFLAGS" with
    | none => none
    | some arch_flags =>
      let env := if arch_flags = "-arch arm64" then
          prepend_env env "ASFLAGS" arch_flags " "
        else env
      let env := prepend_env env "CFLAGS" arch_flags " "
      let env := prepend_env env "CXXFLAGS" arch_flags " "
      let env := prepend_env env "LDFLAGS" arch_flags " "
      some env
  else some env

/-- The observable effects of one orchestration run: ledger marker files
present, external commands issued so far (in order), files cached under the
source directory (downloads: tarballs, `config.guess`/`config.sub`),
directories created, non-ledger files written, renames performed, and trees
placed at canonical extraction paths. -/
structure BuildState where
  markers : List String
  trace : List (List String)
  cacheFiles : List String
  dirs : List String
  written : List String
  renames : List (String × String × String)
  extracted : List String
deriving Repr, DecidableEq

/-- Exit status of each external command: `true` = exit code 0.
`run` (lines 22-24) uses `subprocess.run(cmd, check=True)`, so a `false`
answer raises `CalledProcessError`. -/
abbrev Oracle := List String → Bool

/-- The `curl` command issued by `fetch` (lines 27-28). -/
def fetchCmd (url path : String) : List String :=
  ["curl", "-L", "-o", path, url]

/-- One primitive effect of the orchestrator, in source order. `fail` stands
for a raised Python exception that is not a subprocess failure (assertion
error, `KeyError`, unsupported platform). -/
inductive BuildStep where
  | invoke (cmd : List String)
  | fetchIfMissing (url : String) (path : String)
  | mkdirs (path : String)
  | writeFile (path : String)
  | renameFile (dir a b : String)
  | fail
deriving Repr, DecidableEq

/-- Run a list of steps against a state, stopping with `false` at the first
raised exception: a failing external command or a `fail` step. -/
def execSteps (o : List String → Bool) :
    List BuildStep → BuildState → Bool × BuildState
  | [], s => (true, s)
  | step :: rest, s =>
    match step with
    | .invoke cmd =>
      let s1 : BuildState := { s with trace := s.trace ++ [cmd] }
      if o cmd then execSteps o rest s1 else (false, s1)
    | .fetchIfMissing url path =>
      if path ∈ s.cacheFiles then execSteps o rest s
      else
        let s1 : BuildState := { s with trace := s.trace ++ [fetchCmd url path] }
        if o (fetchCmd url path) then
          execSteps o rest { s1 with cacheFiles := s1.cacheFiles ++ [path] }
        else (false, s1)
    | .mkdirs p => execSteps o rest { s with dirs := s.dirs ++ [p] }
    | .writeFile p => execSteps o rest { s with written := s.written ++ [p] }
    | .renameFile d a b =>
      execSteps o rest { s with renames := s.renames ++ [(d, a, b)] }
    | .fail => (false, s)

/-- The cmake argument list composed by `_build_with_cmake` (lines 260-276).
On Darwin with `for_builder = False` the source reads
`os.environ["ARCHFLAGS"]`, raising when absent (`none`). -/
def Builder.cmakeArgs (b : Builder) (sys : SysConfig) (for_builder : Bool) :
    Option (List String) :=
  let pfx := b.prefixPath for_builder
  let base := ["-GUnix Makefiles", "-DBUILD_SHARED_LIBS=1",
    "-DCMAKE_INSTALL_LIBDIR=lib", "-DCMAKE_INSTALL_PREFIX=" ++ pfx]
  if sys.system = "Darwin" then
    let base := base ++ ["-DCMAKE_INSTALL_NAME_DIR=" ++ pjoin pfx "lib"]
    if !for_builder then
      match getEnv sys.environ "ARCHFLAGS" with
      | none => none
      | some af =>
        some (if af = "-arch arm64" then
            base ++ ["-DCMAKE_OSX_ARCHITECTURES=arm64",
              "-DCMAKE_SYSTEM_NAME=Darwin", "-DCMAKE_SYSTEM_PROCESSOR=arm64"]
          else base)
    else some base
  else some base

/-- `Builder._build_with_cmake` (lines 254-290) as a step plan: the entry
assertion on `build_system`, the environment derivation (which may raise),
the argument composition, `os.makedirs` of the build path, then the three
external invocations: configure, build, install. -/
def Builder.cmakePlan (b : Builder) (sys : SysConfig) (pkg : Package)
    (for_builder : Bool) : List BuildStep :=
  if pkg.build_system ≠ "cmake" then [.fail]
  else
    match b.environmentFor sys for_builder, b.cmakeArgs sys for_builder with
    | some _, some args =>
      let package_path := pjoin b.build_dir pkg.name
      let package_source_path := pjoin package_path pkg.source_dir
      let package_build_path := pjoin package_path pkg.build_dir
      [.mkdirs package_build_path,
       .invoke (["cmake", package_source_path] ++ args ++ pkg.build_arguments),
       .invoke (["cmake", "--build", ".", "--verbose"] ++
         make_args sys pkg.build_parallel),
       .invoke ["cmake", "--install", "."]]
    | _, _ => [.fail]

/-- `Builder._build_with_meson` (lines 292-331) as a step plan: entry
assertion, environment derivation, meson arguments, the cross-file write on
Darwin arm64 cross-builds, `os.makedirs`, then setup / build / install. -/
def Builder.mesonPlan (b : Builder) (sys : SysConfig) (pkg : Package)
    (for_builder : Bool) : List BuildStep :=
  if pkg.build_system ≠ "meson" then [.fail]
  else
    match b.environmentFor sys for_builder with
    | none => [.fail]
    | some _ =>
      let pfx := b.prefixPath for_builder
      let package_path := pjoin b.build_dir pkg.name
      let package_source_path := pjoin package_path pkg.source_dir
      let package_build_path := pjoin package_path pkg.build_dir
      let meson_args := ["--libdir=lib", "--prefix=" ++ pfx]
      let cross :=
        if sys.system = "Darwin" && !for_builder &&
            getEnv sys.environ "ARCHFLAGS" == some "-arch arm64" then
          some (pjoin package_path "meson.cross")
        else none
      let crossSteps := match cross with
        | some f => [BuildStep.writeFile f]
        | none => []
      let meson_args := match cross with
        | some f => meson_args ++ ["--cross-file=" ++ f]
        | none => meson_args
      crossSteps ++
      [.mkdirs package_build_path,
       .invoke (["meson", package_source_path] ++ meson_args ++
         pkg.build_arguments),
       .invoke ["ninja", "--verbose"],
       .invoke ["ninja", "install"]]

/-- The `config.guess`/`config.sub` refresh loop of `_build_with_autoconf`
(lines 185-197): for each matching file found by `os.walk` (supplied here as
the pairs `(script_path, name)`), fetch the canonical copy into the source
cache unless already cached, then overwrite the stale script. -/
def configRefreshSteps (b : Builder) (walkEntries : List (String × String)) :
    List BuildStep :=
  walkEntries.flatMap (fun e =>
    [.fetchIfMissing ("https://git.savannah.gnu.org/cgit/config.git/plain/" ++
        e.2) (pjoin b.source_dir e.2),
     .writeFile e.1])

/-- The configure argument list of `_build_with_autoconf` (lines 199-235),
without the package's own arguments.  `none` models the `KeyError` raised by
`os.environ["ARCHFLAGS"]` on Darwin when not building host tools. -/
def Builder.autoconfArgs (b : Builder) (sys : SysConfig) (pkg : Package)
    (for_builder : Bool) : Option (List String) :=
  let pfx := b.prefixPath for_builder
  let base := ["--disable-static", "--enable-shared",
    "--libdir=" ++ Builder.manglePath sys (pjoin pfx "lib"),
    "--prefix=" ++ Builder.manglePath sys pfx]
  let cross? :=
    if sys.system = "Darwin" && !for_builder then
      match getEnv sys.environ "ARCHFLAGS" with
      | none => none
      | some af => some (af = "-arch arm64")
    else some false
  match cross? with
  | none => none
  | some darwin_arm64_cross =>
    if pkg.name = "vpx" then
      if darwin_arm64_cross then some (base ++ ["--target=arm64-darwin20-gcc"])
      else if sys.system = "Darwin" then
        some (base ++ ["--target=x86_64-darwin13-gcc"])
      else if sys.system = "Windows" then
        some (base ++ ["--target=x86_64-win64-gcc"])
      else some base
    else if darwin_arm64_cross then
      if pkg.name = "ffmpeg" then
        some (base ++ ["--arch=arm64", "--enable-cross-compile"])
      else
        some (base ++ ["--build=x86_64-apple-darwin",
          "--host=aarch64-apple-darwin"])
    else some base

/-- `Builder._build_with_autoconf` (lines 179-252) as a step plan: entry
assertion, the config-script refresh (which issues `curl` invocations and
runs *before* the environment derivation), then configure / make /
make install. -/
def Builder.autoconfPlan (b : Builder) (sys : SysConfig) (pkg : Package)
    (for_builder : Bool) (walkEntries : List (String × String)) :
    List BuildStep :=
  if pkg.build_system ≠ "autoconf" then [.fail]
  else
    configRefreshSteps b walkEntries ++
    match b.environmentFor sys for_builder,
        b.autoconfArgs sys pkg for_builder with
    | some _, some cargs =>
      let package_path := pjoin b.build_dir pkg.name
      let package_source_path := pjoin package_path pkg.source_dir
      let package_build_path := pjoin package_path pkg.build_dir
      [.mkdirs package_build_path,
       .invoke (["sh",
          Builder.manglePath sys (pjoin package_source_path "configure")] ++
          cargs ++ pkg.build_arguments),
       .invoke (["make"] ++ make_args sys pkg.build_parallel ++ ["V=1"]),
       .invoke ["make", "install"]]
    | _, _ => [.fail]

/-- Python `pat in hay` on strings: substring containment. -/
def containsSub : List Char → List Char → Bool
  | [], pat => pat.isEmpty
  | c :: rest, pat => pat.isPrefixOf (c :: rest) || containsSub rest pat

/-- The extra high-bit-depth flags of `_build_x265` (lines 349-353): appended
when the platform tag names neither an x86_64 nor an amd64 machine. -/
def flagsHighBits (plat : String) : List String :=
  if !(containsSub plat.data "x86_64".data || containsSub plat.data "amd64".data)
  then ["-DENABLE_ASSEMBLY=0", "-DENABLE_ALTIVEC=0"]
  else []

/-- The throwaway install path of `_build_x265` (line 346):
`os.path.join(build_dir, package.name, "dummy_install_path")`. -/
def Builder.x265DummyInstallPath (b : Builder) (pkg : Package) : String :=
  pjoin (pjoin b.build_dir pkg.name) "dummy_install_path"

/-- The 12-bit pass package of `_build_x265` (lines 355-367): a
`dataclasses.replace` copy overriding `build_dir` and `build_arguments`. -/
def Builder.x265Pass12 (b : Builder) (pkg : Package) (fhb : List String) :
    Package :=
  { pkg with
    build_dir := "x265-12bits",
    build_arguments := ["-DHIGH_BIT_DEPTH=1", "-DMAIN12=1",
      "-DEXPORT_C_API=0", "-DENABLE_CLI=0", "-DENABLE_SHARED=0",
      "-DCMAKE_INSTALL_PREFIX=" ++ b.x265DummyInstallPath pkg] ++ fhb }

/-- The 10-bit pass package of `_build_x265` (lines 370-381): a
`dataclasses.replace` copy overriding `build_dir` and `build_arguments`. -/
def Builder.x265Pass10 (b : Builder) (pkg : Package) (fhb : List String) :
    Package :=
  { pkg with
    build_dir := "x265-10bits",
    build_arguments := ["-DHIGH_BIT_DEPTH=1", "-DEXPORT_C_API=0",
      "-DENABLE_CLI=0", "-DENABLE_SHARED=0",
      "-DCMAKE_INSTALL_PREFIX=" ++ b.x265DummyInstallPath pkg] ++ fhb }

/-- The arguments assigned to `package.build_arguments` *in place* at line
390 before the final shared pass. -/
def x265FinalArgs : List String :=
  ["-DEXTRA_LIB=x265-10bits.a;x265-12bits.a", "-DLINKED_10BIT=1",
   "-DLINKED_12BIT=1", "-DEXTRA_LINK_FLAGS=-L../x265-10bits -L../x265-12bits"]

/-- `Builder._build_x265` (lines 333-396).  Returns, besides the outcome and
state, the `Package` object as the caller sees it afterwards: line 390
mutates `package.build_arguments` in place, so on any run that reaches the
final pass the caller's package now carries `x265FinalArgs`. -/
def Builder.buildX265 (o : Oracle) (b : Builder) (sys : SysConfig)
    (pkg : Package) (for_builder : Bool) (s : BuildState) :
    Bool × BuildState × Package :=
  if pkg.name ≠ "x265" || pkg.build_arguments ≠ [] then (false, s, pkg)
  else
    match get_platform sys with
    | none => (false, s, pkg)
    | some plat =>
      let fhb := flagsHighBits plat
      let package_path := pjoin b.build_dir pkg.name
      let r1 := execSteps o
        (b.cmakePlan sys (b.x265Pass12 pkg fhb) for_builder ++
         b.cmakePlan sys (b.x265Pass10 pkg fhb) for_builder ++
         [.renameFile (pjoin package_path "x265-12bits")
            "libx265.a" "libx265-12bits.a",
          .renameFile (pjoin package_path "x265-10bits")
            "libx265.a" "libx265-10bits.a"]) s
      if r1.1 then
        let pkg1 : Package := { pkg with build_arguments := x265FinalArgs }
        let r2 := execSteps o (b.cmakePlan sys pkg1 for_builder) r1.2
        (r2.1, r2.2, pkg1)
      else (false, r1.2, pkg)

/-- The dispatched build of `Builder.build` (lines 141-149): the x265
name-based override first, then by `build_system`, with autoconf as the
fallback. -/
def Builder.dispatch (o : Oracle) (b : Builder) (sys : SysConfig)
    (pkg : Package) (for_builder : Bool)
    (walkEntries : List (String × String)) (s : BuildState) :
    Bool × BuildState × Package :=
  if pkg.name = "x265" then b.buildX265 o sys pkg for_builder s
  else if pkg.build_system = "cmake" then
    let r0 := execSteps o (b.cmakePlan sys pkg for_builder) s
    (r0.1, r0.2, pkg)
  else if pkg.build_system = "meson" then
    let r0 := execSteps o (b.mesonPlan sys pkg for_builder) s
    (r0.1, r0.2, pkg)
  else
    let r0 := execSteps o (b.autoconfPlan sys pkg for_builder walkEntries) s
    (r0.1, r0.2, pkg)

/-- `Builder.build` (lines 132-154).  If the ledger marker for the resolved
prefix already exists, return immediately; otherwise dispatch and, only on
success, create the ledger directory and write the marker file.  The
returned `Package` is the caller's object afterwards (mutated only by the
x265 composer). -/
def Builder.build (o : Oracle) (b : Builder) (sys : SysConfig)
    (pkg : Package) (for_builder : Bool)
    (walkEntries : List (String × String)) (s : BuildState) :
    Bool × BuildState × Package :=
  let installed_dir := b.installedDir for_builder
  let installed_file := b.installedFile for_builder pkg.name
  if installed_file ∈ s.markers then (true, s, pkg)
  else
    let r := b.dispatch o sys pkg for_builder walkEntries s
    if r.1 then
      (true,
       { r.2.1 with dirs := r.2.1.dirs ++ [installed_dir],
                    markers := r.2.1.markers ++ [installed_file] },
       r.2.2)
    else (false, r.2.1, r.2.2)

/-- The first path segment of a tar entry name: `name.split("/")[0]`. -/
def firstSegment (name : String) : String :=
  String.mk ((splitOnChar '/' name.data).headD [])

/-- The cached tarball path of `Builder.extract` (lines 414-417): the
explicit `source_filename` if set, else the last segment of the URL. -/
def Builder.tarballPath (b : Builder) (pkg : Package) : String :=
  pjoin b.source_dir
    (if pkg.source_filename ≠ "" then pkg.source_filename
     else String.mk ((splitOnChar '/' pkg.source_url.data).getLastD []))

/-- `Builder.extract` (lines 398-444).  `tarNames` are the archive's entry
names (`tar.getnames()`), `patchExists` whether
`patches/<name>.patch` exists.  Skips when the ledger marker is present;
asserts `source_strip_components ∈ {0, 1}`; fetches the tarball unless
cached; with strip 1 asserts all entries share one first segment *before*
extracting; extracts into a temporary directory and moves the tree to the
canonical path; finally applies the optional patch. -/
def Builder.extract (o : Oracle) (b : Builder)
    (pkg : Package) (for_builder : Bool) (tarNames : List String)
    (patchExists : Bool) (s : BuildState) : Bool × BuildState :=
  let installed_file := b.installedFile for_builder pkg.name
  if installed_file ∈ s.markers then (true, s)
  else if pkg.source_strip_components ≠ 0 ∧ pkg.source_strip_components ≠ 1
  then (false, s)
  else
    let path := pjoin b.build_dir pkg.name
    let patch := pjoin b.patch_dir (pkg.name ++ ".patch")
    let tarball := b.tarballPath pkg
    let rFetch :=
      if tarball ∈ s.cacheFiles then (true, s)
      else
        let s1 : BuildState := { s with
          trace := s.trace ++ [fetchCmd pkg.source_url tarball] }
        if o (fetchCmd pkg.source_url tarball) then
          (true, { s1 with cacheFiles := s1.cacheFiles ++ [tarball] })
        else (false, s1)
    if rFetch.1 then
      let s1 := rFetch.2
      if pkg.source_strip_components ≠ 0 ∧
          ((tarNames.map firstSegment).dedup.length ≠ 1) then
        (false, s1)
      else
        let s2 : BuildState := { s1 with extracted := s1.extracted ++ [path] }
        if patchExists then
          let s3 : BuildState := { s2 with
            trace := s2.trace ++ [["patch", "-d", path, "-i", patch, "-p1"]] }
          (o ["patch", "-d", path, "-i", patch, "-p1"], s3)
        else (true, s2)
    else (false, rFetch.2)

/-- `Builder._environment` as the caller observes it: the derived mapping
(`none` = raised `KeyError`) together with `os.environ` after the call.  The
source's first statement is `env = os.environ.copy()` (line 447) and every
subsequent write (`prepend_env`, `env[...] = ...`) targets that copy, so the
ambient environment after the call is the ambient environment before it. -/
def Builder.environmentStep (b : Builder) (sys : SysConfig)
    (for_builder : Bool) : Option Env × Env :=
  (b.environmentFor sys for_builder, sys.environ)

/-- Extract the value of a `-DCMAKE_INSTALL_PREFIX=` cmake argument.  CMake
honours the *last* such argument on a command line, so the effective install
prefix of an invocation is the last `some` of this over its arguments. -/
def installPrefixOf (arg : String) : Option String :=
  if "-DCMAKE_INSTALL_PREFIX=".data.isPrefixOf arg.data
  then some (String.mk (arg.data.drop 23)) else none

/-- The effective cmake install prefix of a flag list: the value of the last
`-DCMAKE_INSTALL_PREFIX=` argument. -/
def effectiveInstallPrefix (args : List String) : Option String :=
  (args.filterMap installPrefixOf).getLast?

/-!  ## Concrete sample data, used to evaluate the model at explicit inputs  -/

/-- A Linux host with one ambient variable set. -/
def sampleSys : SysConfig := ⟨"Linux", "x86_64", 64, [("CPPFLAGS", "-DX")]⟩

/-- A Windows host. -/
def sampleWinSys : SysConfig := ⟨"Windows", "AMD64", 64, []⟩

/-- A builder rooted at `/install` with working tree under `/work`. -/
def sampleBuilder : Builder := ⟨"/install", "/work/build", "/work/patches", "/work/source"⟩

/-- A fresh run state: no markers, no trace, empty caches. -/
def sampleState : BuildState := ⟨[], [], [], [], [], [], []⟩

/-- An ordinary autoconf package. -/
def samplePng : Package := { name := "png", source_url := "http://h/png-1.6.37.tar.gz" }

/-- The x265 package as declared in `build-ffmpeg.py`. -/
def sampleX265 : Package :=
  { name := "x265",
    source_url := "https://bitbucket.org/multicoreware/x265_git/downloads/x265_3.5.tar.gz",
    build_system := "cmake", source_dir := "source", gpl := true }

/-- External commands that all exit 0. -/
def allOk : Oracle := fun _ => true

/-- External commands that all exit non-zero. -/
def allFail : Oracle := fun _ => false

/-!  ## Lemmas about the environment model  -/

theorem getEnv_setEnv_self (env : Env) (n v : String) :
    getEnv (setEnv env n v) n = some v := by
  induction env with
  | nil => simp [setEnv, getEnv]
  | cons p t ih =>
    by_cases hp : (p.1 == n) = true
    · simp [setEnv, getEnv, hp, List.find?_cons_of_pos]
    · simp only [setEnv, if_neg hp]
      simpa [getEnv, List.find?_cons_of_neg, hp] using ih

theorem getEnv_setEnv_other (env : Env) (n m v : String)
    (h : (n == m) = false) :
    getEnv (setEnv env n v) m = getEnv env m := by
  induction env with
  | nil => simp [setEnv, getEnv, h]
  | cons p t ih =>
    by_cases hp : (p.1 == n) = true
    · have hpm : (p.1 == m) = false := by
        rw [beq_iff_eq.mp hp]; exact h
      simp [setEnv, getEnv, hp, hpm]
    · by_cases hm : (p.1 == m) = true
      · simp [setEnv, getEnv, hp, hm]
      · simp only [setEnv, if_neg hp]
        simpa [getEnv, List.find?_cons_of_neg, hm] using ih

/-- Lookup after `prepend_env`: the new value, separator-joined to the old
one exactly when a non-empty old value existed. -/
theorem getEnv_prepend_env (env : Env) (name new sep : String) :
    getEnv (prepend_env env name new sep) name =
      some (match getEnv env name with
            | some old => if old = "" then new else new ++ sep ++ old
            | none => new) := by
  unfold prepend_env
  cases h : getEnv env name with
  | none => simp [getEnv_setEnv_self]
  | some old =>
    by_cases ho : old = "" <;> simp [ho, getEnv_setEnv_self]

/-!  ## Lemmas about paths  -/

theorem endsWithSep_append (a b : String) (hb : b.data ≠ []) :
    endsWithSep (a ++ b) = endsWithSep b := by
  unfold endsWithSep
  rw [String.data_append, List.getLast?_append]
  cases hb2 : b.data.getLast? with
  | none => exact absurd (List.getLast?_eq_none_iff.mp hb2) hb
  | some x => rfl

theorem str_ne_empty (s : String) (h : s.data ≠ []) : s ≠ "" := by
  intro he; rw [he] at h; exact h rfl

theorem data_ne_nil_append_right (a b : String) (hb : b.data ≠ []) :
    (a ++ b).data ≠ [] := by
  rw [String.data_append]
  intro h
  exact hb (List.append_eq_nil.mp h).2

theorem pjoin_step (a b : String) (h1 : a.data ≠ [])
    (h2 : endsWithSep a = false) (hb : startsWithSep b = false) :
    pjoin a b = a ++ "/" ++ b := by
  simp [pjoin, h2, str_ne_empty a h1, hb]

theorem pjoin_step_slash (a b : String) (h2 : endsWithSep a = true)
    (hb : startsWithSep b = false) :
    pjoin a b = a ++ b := by
  simp [pjoin, h2, hb]

theorem pjoin_step_empty (b : String) (hb : startsWithSep b = false) :
    pjoin "" b = "" ++ b := by
  simp [pjoin, hb]

/-- The ledger-marker path under a prefix that is non-empty and does not end
in a separator. -/
theorem markerChain_normal (pfx name : String) (h1 : pfx.data ≠ [])
    (h2 : endsWithSep pfx = false) (hn : startsWithSep name = false) :
    pjoin (pjoin (pjoin (pjoin pfx "var") "lib") "cibuildpkg") name =
      pfx ++ "/" ++ "var" ++ "/" ++ "lib" ++ "/" ++ "cibuildpkg" ++ "/" ++
        name := by
  have hv : ("var" : String).data ≠ [] := by decide
  have hl : ("lib" : String).data ≠ [] := by decide
  have hc : ("cibuildpkg" : String).data ≠ [] := by decide
  rw [pjoin_step pfx "var" h1 h2 (by decide)]
  rw [pjoin_step _ "lib" (data_ne_nil_append_right _ _ hv)
    (by rw [endsWithSep_append _ _ hv]; decide) (by decide)]
  rw [pjoin_step _ "cibuildpkg" (data_ne_nil_append_right _ _ hl)
    (by rw [endsWithSep_append _ _ hl]; decide) (by decide)]
  rw [pjoin_step _ name (data_ne_nil_append_right _ _ hc)
    (by rw [endsWithSep_append _ _ hc]; decide) hn]

/-- The ledger-marker path under a prefix ending in a separator. -/
theorem markerChain_slash (pfx name : String) (h2 : endsWithSep pfx = true)
    (hn : startsWithSep name = false) :
    pjoin (pjoin (pjoin (pjoin pfx "var") "lib") "cibuildpkg") name =
      pfx ++ "var" ++ "/" ++ "lib" ++ "/" ++ "cibuildpkg" ++ "/" ++ name := by
  have hv : ("var" : String).data ≠ [] := by decide
  have hl : ("lib" : String).data ≠ [] := by decide
  have hc : ("cibuildpkg" : String).data ≠ [] := by decide
  rw [pjoin_step_slash pfx "var" h2 (by decide)]
  rw [pjoin_step _ "lib" (data_ne_nil_append_right _ _ hv)
    (by rw [endsWithSep_append _ _ hv]; decide) (by decide)]
  rw [pjoin_step _ "cibuildpkg" (data_ne_nil_append_right _ _ hl)
    (by rw [endsWithSep_append _ _ hl]; decide) (by decide)]
  rw [pjoin_step _ name (data_ne_nil_append_right _ _ hc)
    (by rw [endsWithSep_append _ _ hc]; decide) hn]

/-- The ledger-marker path under the empty prefix. -/
theorem markerChain_empty (name : String) (hn : startsWithSep name = false) :
    pjoin (pjoin (pjoin (pjoin "" "var") "lib") "cibuildpkg") name =
      "" ++ "var" ++ "/" ++ "lib" ++ "/" ++ "cibuildpkg" ++ "/" ++ name := by
  have hv : ("var" : String).data ≠ [] := by decide
  have hl : ("lib" : String).data ≠ [] := by decide
  have hc : ("cibuildpkg" : String).data ≠ [] := by decide
  rw [pjoin_step_empty "var" (by decide)]
  rw [pjoin_step _ "lib" (data_ne_nil_append_right _ _ hv)
    (by rw [endsWithSep_append _ _ hv]; decide) (by decide)]
  rw [pjoin_step _ "cibuildpkg" (data_ne_nil_append_right _ _ hl)
    (by rw [endsWithSep_append _ _ hl]; decide) (by decide)]
  rw [pjoin_step _ name (data_ne_nil_append_right _ _ hc)
    (by rw [endsWithSep_append _ _ hc]; decide) hn]

theorem builder_suffix_not_slash (d : String) :
    endsWithSep (d ++ ".builder") = false := by
  rw [endsWithSep_append d ".builder" (by decide)]; decide

/-!  ## Lemmas about the step executor  -/

/-- No step ever touches the ledger: markers are written only by
`Builder.build` itself, after a successful dispatch. -/
theorem execSteps_markers (o : List String → Bool) (steps : List BuildStep)
    (s : BuildState) : ((execSteps o steps s).2).markers = s.markers := by
  induction steps generalizing s with
  | nil => rfl
  | cons step rest ih =>
    cases step with
    | invoke cmd =>
      simp only [execSteps]
      split
      · exact ih _
      · rfl
    | fetchIfMissing url path =>
      simp only [execSteps]
      split
      · exact ih _
      · split
        · exact ih _
        · rfl
    | mkdirs p => exact ih _
    | writeFile p => exact ih _
    | renameFile d a c => exact ih _
    | fail => rfl

/-- Steps never remove traced commands and never place extracted trees. -/
theorem execSteps_extracted (o : List String → Bool) (steps : List BuildStep)
    (s : BuildState) : ((execSteps o steps s).2).extracted = s.extracted := by
  induction steps generalizing s with
  | nil => rfl
  | cons step rest ih =>
    cases step with
    | invoke cmd =>
      simp only [execSteps]
      split
      · exact ih _
      · rfl
    | fetchIfMissing url path =>
      simp only [execSteps]
      split
      · exact ih _
      · split
        · exact ih _
        · rfl
    | mkdirs p => exact ih _
    | writeFile p => exact ih _
    | renameFile d a c => exact ih _
    | fail => rfl

/-- If a step run succeeded, every command in the final trace was either
already in the initial trace or exited successfully: a failing external
invocation stops the run at once. -/
theorem execSteps_trace_ok (o : List String → Bool) (steps : List BuildStep)
    (s : BuildState) : (execSteps o steps s).1 = true →
    ∀ c ∈ ((execSteps o steps s).2).trace, c ∈ s.trace ∨ o c = true := by
  induction steps generalizing s with
  | nil => exact fun _ c hc => Or.inl hc
  | cons step rest ih =>
    cases step with
    | invoke cmd =>
      simp only [execSteps]
      split
      · next ho =>
        intro h c hc
        rcases ih _ h c hc with hin | hoc
        · simp only [List.mem_append, List.mem_singleton] at hin
          rcases hin with hin | rfl
          · exact Or.inl hin
          · exact Or.inr ho
        · exact Or.inr hoc
      · intro h; simp at h
    | fetchIfMissing url path =>
      simp only [execSteps]
      split
      · exact ih _
      · split
        · next ho =>
          intro h c hc
          rcases ih _ h c hc with hin | hoc
          · simp only [List.mem_append, List.mem_singleton] at hin
            rcases hin with hin | rfl
            · exact Or.inl hin
            · exact Or.inr ho
          · exact Or.inr hoc
        · intro h; simp at h
    | mkdirs p => exact ih _
    | writeFile p => exact ih _
    | renameFile d a c => exact ih _
    | fail => intro h; simp [execSteps] at h

/-- The x265 composer never touches the ledger. -/
theorem buildX265_markers (o : Oracle) (b : Builder) (sys : SysConfig)
    (pkg : Package) (fb : Bool) (s : BuildState) :
    ((b.buildX265 o sys pkg fb s).2.1).markers = s.markers := by
  unfold Builder.buildX265
  split
  · rfl
  · split
    · rfl
    · simp only
      split
      · rw [execSteps_markers, execSteps_markers]
      · rw [execSteps_markers]

/-- On success, every command the x265 composer added to the trace exited
successfully. -/
theorem buildX265_trace_ok (o : Oracle) (b : Builder) (sys : SysConfig)
    (pkg : Package) (fb : Bool) (s : BuildState) :
    (b.buildX265 o sys pkg fb s).1 = true →
    ∀ c ∈ ((b.buildX265 o sys pkg fb s).2.1).trace,
      c ∈ s.trace ∨ o c = true := by
  unfold Builder.buildX265
  split
  · intro h; simp at h
  · split
    · intro h; simp at h
    · simp only
      split
      · next h1 =>
        intro h c hc
        rcases execSteps_trace_ok _ _ _ h c hc with hin | hoc
        · exact execSteps_trace_ok _ _ _ h1 c hin
        · exact Or.inr hoc
      · intro h; simp at h

theorem dispatch_markers (o : Oracle) (b : Builder) (sys : SysConfig)
    (pkg : Package) (fb : Bool) (we : List (String × String))
    (s : BuildState) :
    ((b.dispatch o sys pkg fb we s).2.1).markers = s.markers := by
  unfold Builder.dispatch
  split
  · exact buildX265_markers o b sys pkg fb s
  · split
    · exact execSteps_markers _ _ _
    · split
      · exact execSteps_markers _ _ _
      · exact execSteps_markers _ _ _

theorem dispatch_trace_ok (o : Oracle) (b : Builder) (sys : SysConfig)
    (pkg : Package) (fb : Bool) (we : List (String × String))
    (s : BuildState) : (b.dispatch o sys pkg fb we s).1 = true →
    ∀ c ∈ ((b.dispatch o sys pkg fb we s).2.1).trace,
      c ∈ s.trace ∨ o c = true := by
  unfold Builder.dispatch
  split
  · exact buildX265_trace_ok o b sys pkg fb s
  · split
    · exact execSteps_trace_ok _ _ _
    · split
      · exact execSteps_trace_ok _ _ _
      · exact execSteps_trace_ok _ _ _

/-- A `build` call that finds the ledger marker present returns immediately:
same state, no trace growth, no writes, and the package untouched. -/
theorem build_noop (o : Oracle) (b : Builder) (sys : SysConfig)
    (pkg : Package) (fb : Bool) (we : List (String × String))
    (s : BuildState) (h : b.installedFile fb pkg.name ∈ s.markers) :
    Builder.build o b sys pkg fb we s = (true, s, pkg) := by
  unfold Builder.build
  rw [if_pos h]

/-- After a successful `build`, the ledger marker is present. -/
theorem build_marker_of_ok (o : Oracle) (b : Builder) (sys : SysConfig)
    (pkg : Package) (fb : Bool) (we : List (String × String))
    (s : BuildState) : (Builder.build o b sys pkg fb we s).1 = true →
    b.installedFile fb pkg.name ∈
      ((Builder.build o b sys pkg fb we s).2.1).markers := by
  simp only [Builder.build]
  split
  · next hmem => intro _; exact hmem
  · split
    · intro _; simp
    · intro h; simp at h

/-- Dispatch never mutates a package other than x265. -/
theorem dispatch_pkg_of_ne (o : Oracle) (b : Builder) (sys : SysConfig)
    (pkg : Package) (fb : Bool) (we : List (String × String))
    (s : BuildState) (h : pkg.name ≠ "x265") :
    (b.dispatch o sys pkg fb we s).2.2 = pkg := by
  unfold Builder.dispatch
  rw [if_neg h]
  split
  · rfl
  · split
    · rfl
    · rfl

/-- A successful x265 composition hands back the package with the in-place
assignment of line 390 applied. -/
theorem buildX265_pkg_of_ok (o : Oracle) (b : Builder) (sys : SysConfig)
    (pkg : Package) (fb : Bool) (s : BuildState) :
    (b.buildX265 o sys pkg fb s).1 = true →
    (b.buildX265 o sys pkg fb s).2.2 =
      { pkg with build_arguments := x265FinalArgs } := by
  unfold Builder.buildX265
  split
  · intro h; simp at h
  · split
    · intro h; simp at h
    · simp only
      split
      · intro _; rfl
      · intro h; simp at h

/-!  ## Lemmas about `pyReplace`  -/

/-- Characters outside both input and replacement never appear in a
replacement result. -/
theorem mem_replaceChars (pat rep : List Char) (fuel : Nat) (s : List Char)
    (ch : Char) (hs : ch ∉ s) (hr : ch ∉ rep) :
    ch ∉ replaceChars pat rep fuel s := by
  induction fuel generalizing s with
  | zero => cases s with
    | nil => simp [replaceChars]
    | cons c rest => simpa [replaceChars] using hs
  | succ fuel ih =>
    cases s with
    | nil => simp [replaceChars]
    | cons c rest =>
      simp only [replaceChars]
      split
      · intro hmem
        rcases List.mem_append.mp hmem with hin | hin
        · exact hr hin
        · exact ih _ (fun hd => hs (List.drop_subset _ _ hd)) hin
      · intro hmem
        rcases List.mem_cons.mp hmem with rfl | hin
        · exact hs (List.mem_cons_self ch rest)
        · exact ih rest (fun hd => hs (List.mem_cons_of_mem _ hd)) hin

/-- Replacing single backslashes by slashes eliminates every backslash,
given enough fuel. -/
theorem backslash_elim (fuel : Nat) (s : List Char) (hf : s.length ≤ fuel) :
    '\\' ∉ replaceChars ['\\'] ['/'] fuel s := by
  induction fuel generalizing s with
  | zero =>
    cases s with
    | nil => simp [replaceChars]
    | cons c rest => simp at hf
  | succ fuel ih =>
    cases s with
    | nil => simp [replaceChars]
    | cons c rest =>
      simp only [replaceChars]
      split
      · next hp =>
        intro hmem
        rcases List.mem_append.mp hmem with hin | hin
        · simp at hin
        · have : rest.length ≤ fuel := by
            have := Nat.le_of_succ_le_succ hf
            simpa using this
          exact ih (List.drop 1 (c :: rest)) (by simpa using this) hin
      · next hp =>
        intro hmem
        rcases List.mem_cons.mp hmem with rfl | hin
        · exact hp (by simp [List.isPrefixOf])
        · exact ih rest (Nat.le_of_succ_le_succ hf) hin

/-!  ## Lemmas for the x265 multi-pass composition  -/

theorem installPrefixOf_concat (p : String) :
    installPrefixOf ("-DCMAKE_INSTALL_PREFIX=" ++ p) = some p := by
  unfold installPrefixOf
  rw [if_pos]
  · rw [String.data_append,
      List.drop_left' (by decide : ("-DCMAKE_INSTALL_PREFIX=" : String).data.length = 23)]
  · rw [String.data_append]
    exact List.isPrefixOf_iff_prefix.mpr (List.prefix_append _ _)

theorem installPrefixOf_name_dir (p : String) :
    installPrefixOf ("-DCMAKE_INSTALL_NAME_DIR=" ++ p) = none := by
  unfold installPrefixOf
  rw [if_neg]
  intro hpre
  have hp := List.isPrefixOf_iff_prefix.mp hpre
  rw [List.prefix_iff_eq_take, String.data_append] at hp
  rw [List.take_append_eq_append_take] at hp
  have h23 : ("-DCMAKE_INSTALL_PREFIX=" : String).data.length = 23 := by decide
  rw [h23] at hp
  have h0 : 23 - ("-DCMAKE_INSTALL_NAME_DIR=" : String).data.length = 0 := by decide
  rw [h0, List.take_zero, List.append_nil] at hp
  exact absurd hp (by decide)

/-- The cmake argument list always carries exactly one install-prefix
argument: the real prefix. -/
theorem cmakeArgs_filterMap (b : Builder) (sys : SysConfig) (fb : Bool)
    (args : List String) (h : b.cmakeArgs sys fb = some args) :
    args.filterMap installPrefixOf = [b.prefixPath fb] := by
  unfold Builder.cmakeArgs at h
  by_cases hd : sys.system = "Darwin"
  · rw [if_pos hd] at h
    cases fb with
    | true =>
      simp only [Bool.not_true, Bool.false_eq_true, if_false,
        Option.some.injEq] at h
      subst h
      simp [List.filterMap, installPrefixOf_concat, installPrefixOf_name_dir,
        (by decide : installPrefixOf "-GUnix Makefiles" = none),
        (by decide : installPrefixOf "-DBUILD_SHARED_LIBS=1" = none),
        (by decide : installPrefixOf "-DCMAKE_INSTALL_LIBDIR=lib" = none)]
    | false =>
      simp only [Bool.not_false, if_true] at h
      cases harch : getEnv sys.environ "ARCHFLAGS" with
      | none => rw [harch] at h; simp at h
      | some af =>
        rw [harch] at h
        simp only [Option.some.injEq] at h
        subst h
        by_cases haf : af = "-arch arm64" <;>
          simp [haf, List.filterMap, installPrefixOf_concat,
            installPrefixOf_name_dir,
            (by decide : installPrefixOf "-GUnix Makefiles" = none),
            (by decide : installPrefixOf "-DBUILD_SHARED_LIBS=1" = none),
            (by decide : installPrefixOf "-DCMAKE_INSTALL_LIBDIR=lib" = none),
            (by decide : installPrefixOf "-DCMAKE_OSX_ARCHITECTURES=arm64" = none),
            (by decide : installPrefixOf "-DCMAKE_SYSTEM_NAME=Darwin" = none),
            (by decide : installPrefixOf "-DCMAKE_SYSTEM_PROCESSOR=arm64" = none)]
  · rw [if_neg hd] at h
    simp only [Option.some.injEq] at h
    subst h
    simp [List.filterMap, installPrefixOf_concat,
      (by decide : installPrefixOf "-GUnix Makefiles" = none),
      (by decide : installPrefixOf "-DBUILD_SHARED_LIBS=1" = none),
      (by decide : installPrefixOf "-DCMAKE_INSTALL_LIBDIR=lib" = none)]

theorem flagsHighBits_filterMap (plat : String) :
    (flagsHighBits plat).filterMap installPrefixOf = [] := by
  unfold flagsHighBits
  split
  · decide
  · decide

/-- The 12-bit pass flags carry the throwaway install path as their last
install-prefix argument. -/
theorem x265Pass12_installPrefix (b : Builder) (pkg : Package)
    (plat : String) :
    ((b.x265Pass12 pkg (flagsHighBits plat)).build_arguments).filterMap
      installPrefixOf = [b.x265DummyInstallPath pkg] := by
  simp only [Builder.x265Pass12, List.filterMap_append, flagsHighBits_filterMap]
  simp [List.filterMap, installPrefixOf_concat,
    (by decide : installPrefixOf "-DHIGH_BIT_DEPTH=1" = none),
    (by decide : installPrefixOf "-DMAIN12=1" = none),
    (by decide : installPrefixOf "-DEXPORT_C_API=0" = none),
    (by decide : installPrefixOf "-DENABLE_CLI=0" = none),
    (by decide : installPrefixOf "-DENABLE_SHARED=0" = none)]

theorem x265Pass10_installPrefix (b : Builder) (pkg : Package)
    (plat : String) :
    ((b.x265Pass10 pkg (flagsHighBits plat)).build_arguments).filterMap
      installPrefixOf = [b.x265DummyInstallPath pkg] := by
  simp only [Builder.x265Pass10, List.filterMap_append, flagsHighBits_filterMap]
  simp [List.filterMap, installPrefixOf_concat,
    (by decide : installPrefixOf "-DHIGH_BIT_DEPTH=1" = none),
    (by decide : installPrefixOf "-DEXPORT_C_API=0" = none),
    (by decide : installPrefixOf "-DENABLE_CLI=0" = none),
    (by decide : installPrefixOf "-DENABLE_SHARED=0" = none)]

theorem x265FinalArgs_filterMap :
    x265FinalArgs.filterMap installPrefixOf = [] := by decide

/-- A cmake plan, spelled out, when the entry assertion passes and the
environment and arguments are derivable. -/
theorem cmakePlan_eq (b : Builder) (sys : SysConfig) (pkg : Package)
    (fb : Bool) (e : Env) (args : List String)
    (hsys : pkg.build_system = "cmake")
    (henv : b.environmentFor sys fb = some e)
    (hcargs : b.cmakeArgs sys fb = some args) :
    b.cmakePlan sys pkg fb =
      [.mkdirs (pjoin (pjoin b.build_dir pkg.name) pkg.build_dir),
       .invoke (["cmake", pjoin (pjoin b.build_dir pkg.name) pkg.source_dir]
         ++ args ++ pkg.build_arguments),
       .invoke (["cmake", "--build", ".", "--verbose"] ++
         make_args sys pkg.build_parallel),
       .invoke ["cmake", "--install", "."]] := by
  unfold Builder.cmakePlan
  rw [if_neg (by simp [hsys])]
  rw [henv, hcargs]

/-- Composing step runs: a successful first phase hands its state to the
second. -/
theorem execSteps_append_ok (o : List String → Bool) (a bs : List BuildStep)
    (s : BuildState) : (execSteps o a s).1 = true →
    execSteps o (a ++ bs) s = execSteps o bs (execSteps o a s).2 := by
  induction a generalizing s with
  | nil => intro _; rfl
  | cons step rest ih =>
    cases step with
    | invoke cmd =>
      simp only [List.cons_append, execSteps]
      split
      · exact ih _
      · intro h; simp at h
    | fetchIfMissing url path =>
      simp only [List.cons_append, execSteps]
      split
      · exact ih _
      · split
        · exact ih _
        · intro h; simp at h
    | mkdirs p => exact ih _
    | writeFile p => exact ih _
    | renameFile d a2 b2 => exact ih _
    | fail => intro h; simp [execSteps] at h

/-- Running one cmake plan under an all-succeeding oracle: one directory
created, three commands traced. -/
theorem execSteps_cmake_shape (o : List String → Bool) (p : String)
    (c1 c2 c3 : List String) (s : BuildState)
    (h1 : o c1 = true) (h2 : o c2 = true) (h3 : o c3 = true) :
    execSteps o [.mkdirs p, .invoke c1, .invoke c2, .invoke c3] s =
      (true, { s with dirs := s.dirs ++ [p],
                      trace := s.trace ++ [c1, c2, c3] }) := by
  simp [execSteps, h1, h2, h3]

/-- Running the two archive renames of the composer. -/
theorem execSteps_renames_shape (o : List String → Bool)
    (d1 a1 b1 d2 a2 b2 : String) (s : BuildState) :
    execSteps o [.renameFile d1 a1 b1, .renameFile d2 a2 b2] s =
      (true, { s with renames := s.renames ++ [(d1, a1, b1), (d2, a2, b2)] }) := by
  simp [execSteps]

/-- The full run of the x265 composer under an all-succeeding oracle with
derivable environment and arguments: three cmake configure/build/install
triples in order (12-bit, 10-bit, final shared), two archive renames in
between, and the in-place package mutation. -/
theorem buildX265_run (o : Oracle) (b : Builder) (sys : SysConfig)
    (pkg : Package) (fb : Bool) (s : BuildState) (e : Env)
    (args : List String) (plat : String)
    (ho : ∀ c, o c = true)
    (hname : pkg.name = "x265")
    (hargs0 : pkg.build_arguments = [])
    (hsys : pkg.build_system = "cmake")
    (hplat : get_platform sys = some plat)
    (henv : b.environmentFor sys fb = some e)
    (hcargs : b.cmakeArgs sys fb = some args) :
    b.buildX265 o sys pkg fb s =
      (true,
       { s with
           dirs := s.dirs ++
             [pjoin (pjoin b.build_dir pkg.name) "x265-12bits",
              pjoin (pjoin b.build_dir pkg.name) "x265-10bits",
              pjoin (pjoin b.build_dir pkg.name) pkg.build_dir],
           trace := s.trace ++
             [["cmake", pjoin (pjoin b.build_dir pkg.name) pkg.source_dir] ++
                args ++ (b.x265Pass12 pkg (flagsHighBits plat)).build_arguments,
              ["cmake", "--build", ".", "--verbose"] ++
                make_args sys pkg.build_parallel,
              ["cmake", "--install", "."],
              ["cmake", pjoin (pjoin b.build_dir pkg.name) pkg.source_dir] ++
                args ++ (b.x265Pass10 pkg (flagsHighBits plat)).build_arguments,
              ["cmake", "--build", ".", "--verbose"] ++
                make_args sys pkg.build_parallel,
              ["cmake", "--install", "."],
              ["cmake", pjoin (pjoin b.build_dir pkg.name) pkg.source_dir] ++
                args ++ x265FinalArgs,
              ["cmake", "--build", ".", "--verbose"] ++
                make_args sys pkg.build_parallel,
              ["cmake", "--install", "."]],
           renames := s.renames ++
             [(pjoin (pjoin b.build_dir pkg.name) "x265-12bits",
               "libx265.a", "libx265-12bits.a"),
              (pjoin (pjoin b.build_dir pkg.name) "x265-10bits",
               "libx265.a", "libx265-10bits.a")] },
       { pkg with build_arguments := x265FinalArgs }) := by
  have h12 : (b.x265Pass12 pkg (flagsHighBits plat)).build_system = "cmake" := hsys
  have h10 : (b.x265Pass10 pkg (flagsHighBits plat)).build_system = "cmake" := hsys
  have hF : ({ pkg with build_arguments := x265FinalArgs } : Package).build_system = "cmake" := hsys
  have e12 := cmakePlan_eq b sys (b.x265Pass12 pkg (flagsHighBits plat)) fb e args h12 henv hcargs
  have e10 := cmakePlan_eq b sys (b.x265Pass10 pkg (flagsHighBits plat)) fb e args h10 henv hcargs
  have eF := cmakePlan_eq b sys { pkg with build_arguments := x265FinalArgs } fb e args hF henv hcargs
  unfold Builder.buildX265
  rw [if_neg (by simp [hname, hargs0])]
  rw [hplat]
  dsimp only
  rw [e12, e10, eF]
  dsimp only [Builder.x265Pass12, Builder.x265Pass10]
  rw [List.append_assoc]
  rw [execSteps_append_ok o _ _ s
    (by rw [execSteps_cmake_shape o _ _ _ _ s (ho _) (ho _) (ho _)])]
  rw [execSteps_cmake_shape o _ _ _ _ s (ho _) (ho _) (ho _)]
  rw [execSteps_append_ok o _ _ _
    (by rw [execSteps_cmake_shape o _ _ _ _ _ (ho _) (ho _) (ho _)])]
  rw [execSteps_cmake_shape o _ _ _ _ _ (ho _) (ho _) (ho _)]
  rw [execSteps_renames_shape]
  dsimp only
  rw [execSteps_cmake_shape o _ _ _ _ _ (ho _) (ho _) (ho _)]
  simp [List.append_assoc]

/-!  ## The claims  -/

/-- C1: for every package and prefix role, after a successful `build`, a
second `build` for the same package name and role — run against the state
the first call left, under *any* oracle, host configuration or walk data —
returns immediately: it issues no external invocation, writes nothing, and
leaves the state exactly as it found it. -/
theorem c1_build_idempotent (o o2 : Oracle) (b : Builder)
    (sys sys2 : SysConfig) (pkg pkg2 : Package) (fb : Bool)
    (we we2 : List (String × String)) (s : BuildState)
    (hname : pkg2.name = pkg.name)
    (hok : (Builder.build o b sys pkg fb we s).1 = true) :
    Builder.build o2 b sys2 pkg2 fb we2
        (Builder.build o b sys pkg fb we s).2.1 =
      (true, (Builder.build o b sys pkg fb we s).2.1, pkg2) := by
  have hmem := build_marker_of_ok o b sys pkg fb we s hok
  have hmem2 : b.installedFile fb pkg2.name ∈
      ((Builder.build o b sys pkg fb we s).2.1).markers := by
    rw [show b.installedFile fb pkg2.name = b.installedFile fb pkg.name from
      by rw [hname]]
    exact hmem
  exact build_noop o2 b sys2 pkg2 fb we2 _ hmem2

/-- C1 witness: a concrete successful first build followed by a no-op second
build, with the second call run under the all-failing oracle to exhibit that
no external command is consulted. -/
theorem c1_witness :
    Builder.build allFail sampleBuilder sampleWinSys samplePng false []
        (Builder.build allOk sampleBuilder sampleSys samplePng false []
          sampleState).2.1 =
      (true,
       (Builder.build allOk sampleBuilder sampleSys samplePng false []
         sampleState).2.1,
       samplePng) :=
  c1_build_idempotent allOk allFail sampleBuilder sampleSys sampleWinSys
    samplePng samplePng false [] [] sampleState rfl (by decide)

/-- C2: starting without a ledger marker, (a) if `build` reports success then
every command it issued exited zero — so a non-zero exit forces the failure
report — and (b) if `build` reports failure then no ledger marker for the
package exists under that prefix afterwards: the marker is written only
after the dispatched build completes. -/
theorem c2_failure_no_marker (o : Oracle) (b : Builder) (sys : SysConfig)
    (pkg : Package) (fb : Bool) (we : List (String × String))
    (s : BuildState)
    (hmark : b.installedFile fb pkg.name ∉ s.markers) :
    ((Builder.build o b sys pkg fb we s).1 = true →
      ∀ c ∈ ((Builder.build o b sys pkg fb we s).2.1).trace,
        c ∈ s.trace ∨ o c = true) ∧
    ((Builder.build o b sys pkg fb we s).1 = false →
      b.installedFile fb pkg.name ∉
        ((Builder.build o b sys pkg fb we s).2.1).markers) := by
  simp only [Builder.build]
  rw [if_neg hmark]
  constructor
  · split
    · next hr =>
      intro _ c hc
      exact dispatch_trace_ok o b sys pkg fb we s hr c hc
    · intro h c hc
      simp at h
  · split
    · intro h
      simp at h
    · intro _
      rw [dispatch_markers]
      exact hmark

/-- C2 witness: with an all-failing oracle the build of a fresh package
fails and leaves no marker. -/
theorem c2_witness :
    (sampleBuilder.installedFile false samplePng.name ∉ sampleState.markers) ∧
    (((Builder.build allFail sampleBuilder sampleSys samplePng false []
        sampleState).1 = true →
      ∀ c ∈ ((Builder.build allFail sampleBuilder sampleSys samplePng false []
        sampleState).2.1).trace, c ∈ sampleState.trace ∨ allFail c = true) ∧
    ((Builder.build allFail sampleBuilder sampleSys samplePng false []
        sampleState).1 = false →
      sampleBuilder.installedFile false samplePng.name ∉
        ((Builder.build allFail sampleBuilder sampleSys samplePng false []
          sampleState).2.1).markers)) :=
  ⟨by decide,
   c2_failure_no_marker allFail sampleBuilder sampleSys samplePng false []
     sampleState (by decide)⟩

/-- C3 counterexample: building the x265 package under an all-succeeding
oracle hands back the caller's Package with `build_arguments` changed — the
in-place assignment of cibuildpkg.py line 390 — so a Package handed to the
orchestrator is *not* never mutated. -/
theorem c3_counterexample :
    (Builder.build allOk sampleBuilder sampleSys sampleX265 false []
      sampleState).2.2 ≠ sampleX265 := by decide

/-- C3 amended: no build operation mutates a Package other than x265 (and
the x265 pass A/B overrides are derived copies), but the multi-pass
composer's final pass *is* installed by an in-place assignment to the
original Package's `build_arguments` field, which afterwards holds the
extra-link argument list. -/
theorem c3_package_mutation (o : Oracle) (b : Builder) (sys : SysConfig)
    (pkg : Package) (fb : Bool) (we : List (String × String))
    (s : BuildState) :
    (pkg.name ≠ "x265" → (Builder.build o b sys pkg fb we s).2.2 = pkg) ∧
    (b.installedFile fb pkg.name ∉ s.markers →
      (Builder.build o b sys pkg fb we s).1 = true →
      pkg.name = "x265" →
      (Builder.build o b sys pkg fb we s).2.2 =
        { pkg with build_arguments := x265FinalArgs }) := by
  refine ⟨?_, ?_⟩
  · intro hne
    simp only [Builder.build]
    split
    · rfl
    · split
      · exact dispatch_pkg_of_ne o b sys pkg fb we s hne
      · exact dispatch_pkg_of_ne o b sys pkg fb we s hne
  · intro hmark hok hx
    revert hok
    simp only [Builder.build]
    rw [if_neg hmark]
    split
    · next hr =>
      intro _
      show (b.dispatch o sys pkg fb we s).2.2 = _
      unfold Builder.dispatch at hr ⊢
      rw [if_pos hx] at hr ⊢
      exact buildX265_pkg_of_ok o b sys pkg fb s hr
    · intro h
      simp at h

/-- C3 witness for the amended statement: an ordinary package is returned
unchanged; the x265 package is returned with the final link arguments
assigned in place. -/
theorem c3_witness :
    (Builder.build allOk sampleBuilder sampleSys samplePng false []
      sampleState).2.2 = samplePng ∧
    (Builder.build allOk sampleBuilder sampleSys sampleX265 false []
      sampleState).2.2 =
      { sampleX265 with build_arguments := x265FinalArgs } :=
  ⟨(c3_package_mutation allOk sampleBuilder sampleSys samplePng false []
      sampleState).1 (by decide),
   (c3_package_mutation allOk sampleBuilder sampleSys sampleX265 false []
      sampleState).2 (by decide) (by decide) (by decide)⟩

/-- C5: for a package with `strip_components = 1` whose tarball is already
cached and whose ledger marker is absent, an archive with more than one
distinct first path segment makes `extract` fail by assertion, returning
the state exactly as it found it — in particular nothing is placed at the
canonical extraction path and no partial extraction is left behind. -/
theorem c5_extract_multi_prefix (o : Oracle) (b : Builder) (pkg : Package)
    (fb : Bool) (tarNames : List String) (patchExists : Bool)
    (s : BuildState)
    (hmark : b.installedFile fb pkg.name ∉ s.markers)
    (hstrip : pkg.source_strip_components = 1)
    (hcache : b.tarballPath pkg ∈ s.cacheFiles)
    (hmulti : 1 < (tarNames.map firstSegment).dedup.length) :
    Builder.extract o b pkg fb tarNames patchExists s = (false, s) := by
  have hne : (tarNames.map firstSegment).dedup.length ≠ 1 := by omega
  simp [Builder.extract, hmark, hstrip, hcache, hne]

/-- C5 witness: a two-prefix archive aborts extraction with the state
untouched. -/
theorem c5_witness :
    Builder.extract allOk sampleBuilder samplePng false
        ["png-1.6.37/README", "stray/file"] false
        { sampleState with
            cacheFiles := [sampleBuilder.tarballPath samplePng] } =
      (false,
       { sampleState with
           cacheFiles := [sampleBuilder.tarballPath samplePng] }) :=
  c5_extract_multi_prefix allOk sampleBuilder samplePng false
    ["png-1.6.37/README", "stray/file"] false
    { sampleState with cacheFiles := [sampleBuilder.tarballPath samplePng] }
    (by decide) (by decide) (by decide) (by decide)

/-- C6 counterexample: with an *existing* but empty `CPPFLAGS`, prepending
yields just the new value — not new value, separator, old value — so the
claim's "when an old value existed" branch is false for the empty old
value. -/
theorem c6_counterexample :
    getEnv (prepend_env [("CPPFLAGS", "")] "CPPFLAGS" "-I/p/include" " ")
        "CPPFLAGS" = some "-I/p/include" ∧
      ("-I/p/include" : String) ≠ "-I/p/include" ++ " " ++ "" := by decide

/-- C6 amended: prepending sets the variable to new value, separator, old
value when a *non-empty* old value existed, and to just the new value
otherwise (absent or empty); and deriving an environment for a prefix with
include path `/p/include` against an ambient `CPPFLAGS` of `-DX` yields
`CPPFLAGS = "-I/p/include -DX"`. -/
theorem c6_prepend_semantics :
    (∀ (env : Env) (name new sep : String),
      getEnv (prepend_env env name new sep) name =
        some (match getEnv env name with
              | some old => if old = "" then new else new ++ sep ++ old
              | none => new)) ∧
    (Builder.environmentFor ⟨"/p", "/w/build", "/w/patches", "/w/source"⟩
        ⟨"Linux", "x86_64", 64, [("CPPFLAGS", "-DX")]⟩ false).map
      (fun e => getEnv e "CPPFLAGS") = some (some "-I/p/include -DX") :=
  ⟨getEnv_prepend_env, by decide⟩

/-- C7: for every builder and every package name (a plain name, not an
absolute path), the ledger marker path under the host-tool prefix differs
from the marker path under the target prefix, so a marker written under one
never satisfies a lookup against the other. -/
theorem c7_ledger_scoping (b : Builder) (name : String)
    (hn : startsWithSep name = false) :
    b.installedFile true name ≠ b.installedFile false name := by
  have hfull : b.installedFile true name =
      pjoin (pjoin (pjoin (pjoin (b.dest_dir ++ ".builder") "var") "lib")
        "cibuildpkg") name := by
    simp [Builder.installedFile, Builder.installedDir, Builder.prefixPath]
  have hfull2 : b.installedFile false name =
      pjoin (pjoin (pjoin (pjoin b.dest_dir "var") "lib") "cibuildpkg")
        name := by
    simp [Builder.installedFile, Builder.installedDir, Builder.prefixPath]
  rw [hfull, hfull2]
  intro heq
  have hlen := congrArg String.length heq
  rw [markerChain_normal (b.dest_dir ++ ".builder") name
    (data_ne_nil_append_right _ _ (by decide))
    (builder_suffix_not_slash b.dest_dir) hn] at hlen
  by_cases hd : b.dest_dir.data = []
  · have hde : b.dest_dir = "" := by
      cases hb : b.dest_dir with
      | mk data => rw [hb] at hd; simp_all
    rw [hde] at hlen
    rw [markerChain_empty name hn] at hlen
    simp [String.length_append] at hlen
    exact absurd hlen (by decide)
  · by_cases hs : endsWithSep b.dest_dir = true
    · rw [markerChain_slash b.dest_dir name hs hn] at hlen
      simp [String.length_append] at hlen
      have h8 : (".builder" : String).length = 8 := by decide
      have hs1 : ("/" : String).length = 1 := by decide
      rw [h8, hs1] at hlen
      omega
    · rw [markerChain_normal b.dest_dir name hd
        (Bool.not_eq_true _ ▸ hs) hn] at hlen
      simp [String.length_append] at hlen
      exact absurd hlen (by decide)

/-- C7 witness: the two marker paths for `png` under the sample builder. -/
theorem c7_witness :
    sampleBuilder.installedFile true "png" ≠
      sampleBuilder.installedFile false "png" :=
  c7_ledger_scoping sampleBuilder "png" (by decide)

/-- C8 counterexample: on Windows a drive letter other than `C:` or `D:` is
*not* rewritten to a slash-lowercase-letter root — `_mangle_path` only
replaces `C:` and `D:` — refuting "and so on for any drive letter". -/
theorem c8_counterexample :
    Builder.manglePath sampleWinSys "E:\\data" = "E:/data" ∧
      ("E:/data" : String) ≠ "/e/data" := by decide

/-- C8 amended: on Windows, path mangling turns every backslash into a
forward slash (the result contains no backslash) and rewrites the two drive
letters the code knows about, `C:` to `/c` and `D:` to `/d`, leaving any
other drive letter unchanged; on every other platform it is the identity. -/
theorem c8_mangle_path (sys : SysConfig) (path : String) :
    (sys.system ≠ "Windows" → Builder.manglePath sys path = path) ∧
    (sys.system = "Windows" → '\\' ∉ (Builder.manglePath sys path).data) ∧
    Builder.manglePath sampleWinSys "C:\\Users\\me" = "/c/Users/me" ∧
    Builder.manglePath sampleWinSys "D:\\a\\b" = "/d/a/b" ∧
    Builder.manglePath sampleWinSys "E:\\a" = "E:/a" := by
  refine ⟨?_, ?_, by decide, by decide, by decide⟩
  · intro h
    simp [Builder.manglePath, h]
  · intro h
    rw [Builder.manglePath, if_pos h]
    have h1 : '\\' ∉ (pyReplace path "\\" "/").data := by
      rw [pyReplace, if_neg (by decide)]
      exact backslash_elim _ _ (Nat.le_refl _)
    have h2 : '\\' ∉ (pyReplace (pyReplace path "\\" "/") "C:" "/c").data := by
      rw [pyReplace, if_neg (by decide)]
      exact mem_replaceChars _ _ _ _ _ h1 (by decide)
    rw [pyReplace, if_neg (by decide)]
    exact mem_replaceChars _ _ _ _ _ h2 (by decide)

/-- C8 witness for the amended statement: identity off Windows, and a
backslash-free result on Windows. -/
theorem c8_witness :
    Builder.manglePath sampleSys "/a/b" = "/a/b" ∧
    '\\' ∉ (Builder.manglePath sampleWinSys "C:\\x\\y").data :=
  ⟨(c8_mangle_path sampleSys "/a/b").1 (by decide),
   (c8_mangle_path sampleWinSys "C:\\x\\y").2.1 (by decide)⟩

/-- C9: environment derivation leaves the ambient process environment
unchanged (the source copies `os.environ` and writes only to the copy), and
it is deterministic: a second derivation against the ambient environment
left by the first produces exactly the first result. -/
theorem c9_environment_nondestructive (b : Builder) (sys : SysConfig)
    (fb : Bool) :
    (b.environmentStep sys fb).2 = sys.environ ∧
    (b.environmentStep
        { sys with environ := (b.environmentStep sys fb).2 } fb).1 =
      (b.environmentStep sys fb).1 :=
  ⟨rfl, rfl⟩

/-- C10: an existing-but-empty value is treated exactly like an absent one:
`prepend_env` sets the variable to just the new value, no separator. -/
theorem c10_prepend_env_empty (env : Env) (name new sep : String)
    (h : getEnv env name = some "") :
    getEnv (prepend_env env name new sep) name = some new := by
  rw [getEnv_prepend_env, h]
  simp

/-- C10 witness: an empty `PATH` binding is overwritten with just the new
value. -/
theorem c10_witness :
    getEnv [("PATH", "")] "PATH" = some "" ∧
    getEnv (prepend_env [("PATH", "")] "PATH" "/install.builder/bin" ":")
        "PATH" = some "/install.builder/bin" :=
  ⟨by decide,
   c10_prepend_env_empty [("PATH", "")] "PATH" "/install.builder/bin" ":"
     (by decide)⟩

/-- C4: under a mocked backend that records invocations and succeeds, and
with marker absent and environment/arguments derivable, building the x265
package issues exactly three cmake configure/build/install triples, in
order: first the 12-bit (highest-depth) pass, then the 10-bit pass, then
the default-depth shared pass; the effective install prefix (the last
`-DCMAKE_INSTALL_PREFIX=` argument, which cmake honours) of the first two
is the throwaway `dummy_install_path` — distinct from the real prefix —
while the third installs into the real prefix and carries
`-DEXTRA_LIB=x265-10bits.a;x265-12bits.a`, naming both renamed static
archive filenames as extra link inputs. -/
theorem c4_x265_three_passes (o : Oracle) (b : Builder) (sys : SysConfig)
    (pkg : Package) (fb : Bool) (we : List (String × String))
    (s : BuildState) (e : Env) (args : List String) (plat : String)
    (ho : ∀ c, o c = true)
    (hmark : b.installedFile fb pkg.name ∉ s.markers)
    (hname : pkg.name = "x265")
    (hargs0 : pkg.build_arguments = [])
    (hsys : pkg.build_system = "cmake")
    (hplat : get_platform sys = some plat)
    (henv : b.environmentFor sys fb = some e)
    (hcargs : b.cmakeArgs sys fb = some args)
    (hdummy : b.x265DummyInstallPath pkg ≠ b.prefixPath fb) :
    ((Builder.build o b sys pkg fb we s).2.1).trace = s.trace ++
      [["cmake", pjoin (pjoin b.build_dir pkg.name) pkg.source_dir] ++
         args ++ (b.x265Pass12 pkg (flagsHighBits plat)).build_arguments,
       ["cmake", "--build", ".", "--verbose"] ++
         make_args sys pkg.build_parallel,
       ["cmake", "--install", "."],
       ["cmake", pjoin (pjoin b.build_dir pkg.name) pkg.source_dir] ++
         args ++ (b.x265Pass10 pkg (flagsHighBits plat)).build_arguments,
       ["cmake", "--build", ".", "--verbose"] ++
         make_args sys pkg.build_parallel,
       ["cmake", "--install", "."],
       ["cmake", pjoin (pjoin b.build_dir pkg.name) pkg.source_dir] ++
         args ++ x265FinalArgs,
       ["cmake", "--build", ".", "--verbose"] ++
         make_args sys pkg.build_parallel,
       ["cmake", "--install", "."]] ∧
    ((Builder.build o b sys pkg fb we s).2.1).renames = s.renames ++
      [(pjoin (pjoin b.build_dir pkg.name) "x265-12bits",
        "libx265.a", "libx265-12bits.a"),
       (pjoin (pjoin b.build_dir pkg.name) "x265-10bits",
        "libx265.a", "libx265-10bits.a")] ∧
    effectiveInstallPrefix (args ++
        (b.x265Pass12 pkg (flagsHighBits plat)).build_arguments) =
      some (b.x265DummyInstallPath pkg) ∧
    effectiveInstallPrefix (args ++
        (b.x265Pass10 pkg (flagsHighBits plat)).build_arguments) =
      some (b.x265DummyInstallPath pkg) ∧
    effectiveInstallPrefix (args ++ x265FinalArgs) =
      some (b.prefixPath fb) ∧
    b.x265DummyInstallPath pkg ≠ b.prefixPath fb ∧
    "-DEXTRA_LIB=x265-10bits.a;x265-12bits.a" ∈ args ++ x265FinalArgs := by
  have hrun := buildX265_run o b sys pkg fb s e args plat ho hname hargs0
    hsys hplat henv hcargs
  have hb : (Builder.build o b sys pkg fb we s).2.1 =
      { (b.buildX265 o sys pkg fb s).2.1 with
          dirs := (b.buildX265 o sys pkg fb s).2.1.dirs ++
            [b.installedDir fb],
          markers := (b.buildX265 o sys pkg fb s).2.1.markers ++
            [b.installedFile fb pkg.name] } := by
    simp only [Builder.build]
    rw [if_neg hmark]
    unfold Builder.dispatch
    rw [if_pos hname]
    rw [hrun]
    rfl
  refine ⟨?_, ?_, ?_, ?_, ?_, hdummy, by simp [x265FinalArgs]⟩
  · rw [hb, hrun]
  · rw [hb, hrun]
  · unfold effectiveInstallPrefix
    rw [List.filterMap_append, cmakeArgs_filterMap b sys fb args hcargs,
      x265Pass12_installPrefix]
    simp
  · unfold effectiveInstallPrefix
    rw [List.filterMap_append, cmakeArgs_filterMap b sys fb args hcargs,
      x265Pass10_installPrefix]
    simp
  · unfold effectiveInstallPrefix
    rw [List.filterMap_append, cmakeArgs_filterMap b sys fb args hcargs,
      x265FinalArgs_filterMap]
    simp

/-- C4 witness: the sample x265 build on the sample Linux host, checking the
throwaway install prefix of the 12-bit pass, its distinctness from the real
prefix, the real-prefix install of the final pass, and the extra-lib
argument naming both renamed archives. -/
theorem c4_witness :
    effectiveInstallPrefix (["-GUnix Makefiles", "-DBUILD_SHARED_LIBS=1",
        "-DCMAKE_INSTALL_LIBDIR=lib", "-DCMAKE_INSTALL_PREFIX=/install"] ++
      (sampleBuilder.x265Pass12 sampleX265
        (flagsHighBits "manylinux_x86_64")).build_arguments) =
      some (sampleBuilder.x265DummyInstallPath sampleX265) ∧
    effectiveInstallPrefix (["-GUnix Makefiles", "-DBUILD_SHARED_LIBS=1",
        "-DCMAKE_INSTALL_LIBDIR=lib", "-DCMAKE_INSTALL_PREFIX=/install"] ++
      x265FinalArgs) = some (sampleBuilder.prefixPath false) ∧
    sampleBuilder.x265DummyInstallPath sampleX265 ≠
      sampleBuilder.prefixPath false ∧
    "-DEXTRA_LIB=x265-10bits.a;x265-12bits.a" ∈
      (["-GUnix Makefiles", "-DBUILD_SHARED_LIBS=1",
        "-DCMAKE_INSTALL_LIBDIR=lib", "-DCMAKE_INSTALL_PREFIX=/install"] ++
       x265FinalArgs) := by
  have T := c4_x265_three_passes allOk sampleBuilder sampleSys sampleX265
    false [] sampleState
    [("CPPFLAGS", "-I/install/include -DX"), ("LDFLAGS", "-L/install/lib"),
     ("PKG_CONFIG_PATH", "/install/lib/pkgconfig")]
    ["-GUnix Makefiles", "-DBUILD_SHARED_LIBS=1",
     "-DCMAKE_INSTALL_LIBDIR=lib", "-DCMAKE_INSTALL_PREFIX=/install"]
    "manylinux_x86_64"
    (fun _ => rfl) (by decide) rfl rfl rfl (by decide) (by decide)
    (by decide) (by decide)
  exact ⟨T.2.2.1, T.2.2.2.2.1, T.2.2.2.2.2.1, T.2.2.2.2.2.2⟩

end Cibuildpkg
